import Mathlib

/-!
Shallow embedding of the dispatch core of the logistics application:
demand priority scoring (demands.service.js, getPlanningDemands),
the greedy tour builders (plan.controller.js buildGreedyTours and
tours.controller.js buildGreedyTour), and the tour/stop lifecycle
controllers (tours.controller.js requestTour, startTour, completeStop,
partialStop, notReadyStop), together with theorems settling the
specification claims.

Modeling conventions:
- JavaScript numbers held in data (coordinates, kilograms, priorities,
  timestamps in milliseconds) are rationals; values produced by the
  trigonometric distance computation are reals.
- A JavaScript falsy test on a number (the check with the bang operator)
  is modeled as equality with 0; a falsy test on a possibly missing
  object field is modeled as Option.isNone.
- Math.round x is round x (the floor of x + 1/2), which matches the
  JavaScript round-half-up behavior on every input.
- MongoDB documents are records in lists; an $unset of a subdocument
  sets the corresponding Option field to none; the dollar-exists checks
  of the eligibility query are Option.isSome / Option.isNone.
- Scalar fields that no modeled operation ever reads (denormalized
  garage/address/contact copies, SIGNUS traceability codes, stored
  total distances) are elided from the document records.
- The value Infinity returned by distanceKm for missing or falsy
  coordinates is modeled by the none case of an Option-valued distance;
  the initial bestScore of Infinity in the greedy scan is the none case
  of the accumulator score, and any real score beats it, exactly as any
  finite double compares below Infinity.
-/

namespace LogisticApp

/-- JavaScript x || dflt on a number: 0 (falsy) falls back to the default. -/
def jsOr (x dflt : ℚ) : ℚ := if x = 0 then dflt else x

/-- JavaScript x || dflt on an optional count: missing or 0 falls back. -/
def jsOrNat (x : Option ℕ) (dflt : ℕ) : ℕ :=
  match x with
  | none => dflt
  | some 0 => dflt
  | some k => k

/-- One day in milliseconds (1000 * 60 * 60 * 24 in the source). -/
def msPerDay : ℚ := 1000 * 60 * 60 * 24

/-- Priority scoring of getPlanningDemands (demands.service.js, lines
185 to 225): age, deadline and weight scores, each clamped, combined as
round((0.4 * ageScore + 0.4 * deadlineScore + 0.2 * weightScore) * 100).
A missing requestedAt leaves ageDays at 0; a missing deadlineAt uses the
999 day sentinel. -/
def scoreDemand (requestedAt deadlineAt : Option ℚ) (kg : ℚ) (planDate : ℚ) : ℤ :=
  let ageDays : ℚ :=
    match requestedAt with
    | none => 0
    | some r =>
      let a := (planDate - r) / msPerDay
      if a < 0 then 0 else a
  let daysToDeadline : ℚ :=
    match deadlineAt with
    | none => 999
    | some dl =>
      let dtd := (dl - planDate) / msPerDay
      if dtd < 0 then 0 else dtd
  let ageScore := min (ageDays / 30) 1
  let deadlineScore := 1 - min (daysToDeadline / 30) 1
  let weightScore := min (kg / 3000) 1
  round ((0.4 * ageScore + 0.4 * deadlineScore + 0.2 * weightScore) * 100)

/-- The scoring formula exactly as the specification words it (claim C7):
round(100 * (0.4 * ageScore + 0.4 * deadlineScore + 0.2 * weightScore))
with ageScore = min(max(0, (asOf - requestedAt)/day)/30, 1),
deadlineScore = 1 - min(daysToDeadline/30, 1) where daysToDeadline is
max(0, (deadlineAt - asOf)/day), or 999 when no deadline exists, and
weightScore = min(quantity/3000, 1). -/
def scoreSpec (requestedAt : ℚ) (deadlineAt : Option ℚ) (kg : ℚ) (asOf : ℚ) : ℤ :=
  let ageScore := min (max 0 ((asOf - requestedAt) / msPerDay) / 30) 1
  let daysToDeadline : ℚ :=
    match deadlineAt with
    | none => 999
    | some dl => max 0 ((dl - asOf) / msPerDay)
  let deadlineScore := 1 - min (daysToDeadline / 30) 1
  let weightScore := min (kg / 3000) 1
  round (100 * (0.4 * ageScore + 0.4 * deadlineScore + 0.2 * weightScore))

/-- A coordinate pair (a lat/lng record). -/
structure GeoPoint where
  lat : ℚ
  lng : ℚ
  deriving DecidableEq

open Real in
/-- Two argument arctangent with the JavaScript Math.atan2 sign
conventions (signed zero subtleties aside, which no claim touches). -/
noncomputable def atan2 (y x : ℝ) : ℝ :=
  if 0 < x then arctan (y / x)
  else if x < 0 then
    (if y < 0 then arctan (y / x) - π else arctan (y / x) + π)
  else
    (if 0 < y then π / 2 else if y < 0 then -(π / 2) else 0)

open Real in
/-- Haversine great circle distance in km: the arithmetic body shared by
distanceKm of tours.controller.js and of plan.controller.js. -/
noncomputable def haversineKm (a b : GeoPoint) : ℝ :=
  let dLat := (((b.lat : ℝ) - (a.lat : ℝ)) * π) / 180
  let dLng := (((b.lng : ℝ) - (a.lng : ℝ)) * π) / 180
  let lat1 := ((a.lat : ℝ) * π) / 180
  let lat2 := ((b.lat : ℝ) * π) / 180
  let sinDLat := sin (dLat / 2)
  let sinDLng := sin (dLng / 2)
  let h := sinDLat * sinDLat + cos lat1 * cos lat2 * sinDLng * sinDLng
  let c := 2 * atan2 (sqrt h) (sqrt (1 - h))
  6371 * c

/-- distanceKm of tours.controller.js (lines 16 to 36): Infinity (here
none) when either point is missing or has a zero (falsy) component,
otherwise the haversine value. -/
noncomputable def distanceKm (a b : Option GeoPoint) : Option ℝ :=
  match a, b with
  | some a, some b =>
    if a.lat = 0 ∨ a.lng = 0 ∨ b.lat = 0 ∨ b.lng = 0 then none
    else some (haversineKm a b)
  | _, _ => none

/-- distanceKm of plan.controller.js (lines 10 to 32); it is only ever
called with present coordinate records, so the object nullness part of
its guard cannot fire and only the falsy component check remains. -/
noncomputable def distanceKmP (a b : GeoPoint) : Option ℝ :=
  if a.lat = 0 ∨ a.lng = 0 ∨ b.lat = 0 ∨ b.lng = 0 then none
  else some (haversineKm a b)

/-- Demand lifecycle statuses (Demand model). -/
inductive DemandStatus
  | NEW | CONFIRMED | SCHEDULED | IN_PROGRESS | PARTIAL | COMPLETED
  | NOT_READY | EXPIRED | CANCELED
  deriving DecidableEq

/-- The assigned subdocument of a Demand. -/
structure Assignment where
  driverId : ℕ
  tourId : ℕ
  date : ℤ
  deriving DecidableEq

/-- A Demand document, restricted to the fields the modeled operations
read. The geo field being some models geo.lat and geo.lng existing; the
assigned field being some models assigned.driverId existing. -/
structure DemandDoc where
  id : ℕ
  estadoCod : String
  status : DemandStatus
  assigned : Option Assignment
  geo : Option GeoPoint
  qtyEstimatedKg : ℚ
  priority : ℚ
  requestedAt : Option ℚ
  deadlineAt : Option ℚ
  deriving DecidableEq

/-- A pool entry of buildGreedyTour: a demand together with the used
flag added by the spread copy at the top of the builder. -/
structure PoolEntry where
  demand : DemandDoc
  used : Bool
  deriving DecidableEq

/-- A selected stop of buildGreedyTour: the chosen demand and the leg
distance from the previous position, rounded to two decimals. The
transient used flag of the pool object is not part of the demand
document and is dropped here. -/
structure SelectedStop where
  demand : DemandDoc
  distanceFromPrevKm : ℝ

/-- Number(x.toFixed(2)). -/
noncomputable def jsToFixed2 (x : ℝ) : ℝ := ((round (x * 100) : ℤ) : ℝ) / 100

/-- Mutable state of the buildGreedyTour loop. -/
structure BuildState where
  pool : List PoolEntry
  remainingCapacity : ℚ
  currentPos : Option GeoPoint
  totalDistanceKm : ℝ
  selected : List SelectedStop

/-- Return value of buildGreedyTour. -/
structure BuildResult where
  remainingCapacityKg : ℚ
  totalDistanceKm : ℝ
  selected : List SelectedStop

open Classical in
/-- One forEach step of the best candidate scan in buildGreedyTour
(tours.controller.js, lines 69 to 90), in source order: skip used
entries, entries over the remaining capacity, entries whose geo is
missing or has a falsy component, entries at Infinity distance; then
score as distance divided by (1 + priority / 50) and keep the strictly
better candidate (first found wins on ties). The accumulator keeps the
best (index, entry, distance) and the best score, none being the initial
Infinity which any real score beats. -/
noncomputable def scanStep (currentPos : Option GeoPoint) (remaining : ℚ)
    (acc : Option (ℕ × PoolEntry × ℝ) × Option ℝ) (idx : ℕ) (e : PoolEntry) :
    Option (ℕ × PoolEntry × ℝ) × Option ℝ :=
  if e.used then acc
  else if remaining < e.demand.qtyEstimatedKg then acc
  else
    match e.demand.geo with
    | none => acc
    | some g =>
      if g.lat = 0 ∨ g.lng = 0 then acc
      else
        match distanceKm currentPos (some g) with
        | none => acc
        | some dist =>
          let priorityFactor : ℝ := 1 + (e.demand.priority : ℝ) / 50
          let score := dist / priorityFactor
          match acc.2 with
          | none => (some (idx, e, dist), some score)
          | some bestScore =>
            if score < bestScore then (some (idx, e, dist), some score) else acc

/-- The indexed forEach over the pool. -/
noncomputable def scanPool (currentPos : Option GeoPoint) (remaining : ℚ) :
    List PoolEntry → ℕ → (Option (ℕ × PoolEntry × ℝ) × Option ℝ) →
    Option (ℕ × PoolEntry × ℝ) × Option ℝ
  | [], _, acc => acc
  | e :: rest, idx, acc =>
    scanPool currentPos remaining rest (idx + 1) (scanStep currentPos remaining acc idx e)

/-- The best next demand for buildGreedyTour, with its index in the pool
and its distance from the current position. -/
noncomputable def findBest (pool : List PoolEntry) (currentPos : Option GeoPoint)
    (remaining : ℚ) : Option (ℕ × PoolEntry × ℝ) :=
  (scanPool currentPos remaining pool 0 (none, none)).1

/-- The loop of buildGreedyTour: while remainingCapacity > 0 and fewer
than MAX_ITERATIONS passes have run, pick the best candidate, mark it
used, subtract its quantity, advance the position and append the stop.
The leg distance recomputed by the source is the same pure distanceKm
call whose value findBest already carries. -/
noncomputable def greedyLoop : ℕ → BuildState → BuildState
  | 0, s => s
  | fuel + 1, s =>
    if s.remainingCapacity ≤ 0 then s
    else
      match findBest s.pool s.currentPos s.remainingCapacity with
      | none => s
      | some (idx, best, dist) =>
        greedyLoop fuel
          { pool := s.pool.set idx { best with used := true }
            remainingCapacity := s.remainingCapacity - best.demand.qtyEstimatedKg
            currentPos := best.demand.geo
            totalDistanceKm := s.totalDistanceKm + dist
            selected := s.selected ++ [⟨best.demand, jsToFixed2 dist⟩] }

/-- The MAX_ITERATIONS safety limit of buildGreedyTour. -/
def MAX_ITERATIONS : ℕ := 100

/-- buildGreedyTour (tours.controller.js, lines 46 to 129): greedy
single driver tour construction; returns the rounded remaining capacity,
the total distance to two decimals and the selected stops. -/
noncomputable def buildGreedyTour (demands : List DemandDoc) (start : Option GeoPoint)
    (capacityKg : ℚ) : BuildResult :=
  let pool := demands.map (fun d => { demand := d, used := false })
  let s := greedyLoop MAX_ITERATIONS
    { pool := pool, remainingCapacity := capacityKg, currentPos := start
      totalDistanceKm := 0, selected := [] }
  { remainingCapacityKg := ((round s.remainingCapacity : ℤ) : ℚ)
    totalDistanceKm := jsToFixed2 s.totalDistanceKm
    selected := s.selected }

/-- Total planned kilograms of the stops selected by buildGreedyTour
(each stop is planned at the demand quantity at assignment time). -/
def sumPlannedKg (sel : List SelectedStop) : ℚ :=
  (sel.map (fun s => s.demand.qtyEstimatedKg)).sum

/-- A planning demand as produced by getPlanningDemands for the multi
driver planner (flat shape). A missing latitude or longitude is modeled
as 0, which every falsy check in the builder treats identically. The
assigned flag is the one added by the pool copy at the top of
buildGreedyTours. -/
structure PlanDemand where
  id : ℕ
  kg : ℚ
  lat : ℚ
  lng : ℚ
  priority : ℚ
  assigned : Bool
  deriving DecidableEq

/-- A stop pushed by buildGreedyTours (claim relevant fields; the
denormalized garage, address, contact and date copies are elided). -/
structure PlanStop where
  demandId : ℕ
  kg : ℚ
  lat : ℚ
  lng : ℚ
  order : ℕ
  distanceFromPrevKm : ℝ
  priority : ℚ

/-- A planner driver record (id, capacity, start position). -/
structure PlanDriver where
  id : ℕ
  capacityKg : ℚ
  start : GeoPoint

/-- One tour produced by buildGreedyTours. -/
structure PlanTour where
  driverId : ℕ
  capacityKg : ℚ
  totalDistanceKm : ℝ
  totalStops : ℕ
  remainingCapacityKg : ℚ
  stops : List PlanStop

open Classical in
/-- One forEach step of the candidate scan in buildGreedyTours
(plan.controller.js, lines 60 to 84), in source order: skip assigned
entries, entries over the remaining capacity, entries with a falsy
latitude or longitude, entries at Infinity distance; then score and keep
the strictly better candidate. -/
noncomputable def scanStepP (currentPos : GeoPoint) (remaining : ℚ)
    (acc : Option (ℕ × PlanDemand × ℝ) × Option ℝ) (idx : ℕ) (d : PlanDemand) :
    Option (ℕ × PlanDemand × ℝ) × Option ℝ :=
  if d.assigned then acc
  else if remaining < d.kg then acc
  else if d.lat = 0 ∨ d.lng = 0 then acc
  else
    match distanceKmP currentPos ⟨d.lat, d.lng⟩ with
    | none => acc
    | some dist =>
      let priorityFactor : ℝ := 1 + (d.priority : ℝ) / 50
      let score := dist / priorityFactor
      match acc.2 with
      | none => (some (idx, d, dist), some score)
      | some bestScore =>
        if score < bestScore then (some (idx, d, dist), some score) else acc

/-- The indexed forEach over the shared remaining demands. -/
noncomputable def scanPoolP (currentPos : GeoPoint) (remaining : ℚ) :
    List PlanDemand → ℕ → (Option (ℕ × PlanDemand × ℝ) × Option ℝ) →
    Option (ℕ × PlanDemand × ℝ) × Option ℝ
  | [], _, acc => acc
  | d :: rest, idx, acc =>
    scanPoolP currentPos remaining rest (idx + 1) (scanStepP currentPos remaining acc idx d)

/-- The best next demand for one driver in buildGreedyTours. -/
noncomputable def findBestP (pool : List PlanDemand) (currentPos : GeoPoint)
    (remaining : ℚ) : Option (ℕ × PlanDemand × ℝ) :=
  (scanPoolP currentPos remaining pool 0 (none, none)).1

/-- Mutable state of the per driver while loop of buildGreedyTours. -/
structure PlanDriverState where
  pool : List PlanDemand
  remainingCapacity : ℚ
  currentPos : GeoPoint
  totalDistanceKm : ℝ
  stops : List PlanStop

/-- The while true stop selection loop for one driver in
buildGreedyTours. The source loop carries no explicit bound and exits
when no candidate qualifies; since every pass marks one pool demand
assigned, pool.length + 1 passes always reach that exit, and the claim
theorems are proved for every fuel value, covering the unbounded loop. -/
noncomputable def driverLoop : ℕ → PlanDriverState → PlanDriverState
  | 0, s => s
  | fuel + 1, s =>
    match findBestP s.pool s.currentPos s.remainingCapacity with
    | none => s
    | some (idx, best, dist) =>
      driverLoop fuel
        { pool := s.pool.set idx { best with assigned := true }
          remainingCapacity := s.remainingCapacity - best.kg
          currentPos := ⟨best.lat, best.lng⟩
          totalDistanceKm := s.totalDistanceKm + dist
          stops := s.stops ++
            [{ demandId := best.id, kg := best.kg, lat := best.lat, lng := best.lng
               order := s.stops.length + 1, distanceFromPrevKm := jsToFixed2 dist
               priority := best.priority }] }

/-- The body of the per driver for loop of buildGreedyTours: run the
stop selection loop for this driver against the shared remaining pool,
then append the produced tour and thread the updated pool. -/
noncomputable def planDriverStep (fuel : ℕ)
    (acc : List PlanTour × List PlanDemand) (driver : PlanDriver) :
    List PlanTour × List PlanDemand :=
  let s := driverLoop fuel
    { pool := acc.2, remainingCapacity := jsOr driver.capacityKg 3200
      currentPos := driver.start, totalDistanceKm := 0, stops := [] }
  (acc.1 ++
    [{ driverId := driver.id, capacityKg := driver.capacityKg
       totalDistanceKm := jsToFixed2 s.totalDistanceKm
       totalStops := s.stops.length
       remainingCapacityKg := ((round s.remainingCapacity : ℤ) : ℚ)
       stops := s.stops }],
   s.pool)

/-- buildGreedyTours (plan.controller.js, lines 41 to 137) at a given
per driver fuel: fold over the drivers threading the shared pool of
remaining demands; each tour reports the rounded remaining capacity. -/
noncomputable def buildGreedyToursFuel (fuel : ℕ) (drivers : List PlanDriver)
    (demands : List PlanDemand) : List PlanTour :=
  let pool0 := demands.map (fun d => { d with assigned := false })
  (drivers.foldl (planDriverStep fuel) ([], pool0)).1

/-- buildGreedyTours with the fuel that always suffices for the source
loop to reach its natural exit. -/
noncomputable def buildGreedyTours (drivers : List PlanDriver)
    (demands : List PlanDemand) : List PlanTour :=
  buildGreedyToursFuel (demands.length + 1) drivers demands

/-- Strict coordinate check on a plan stop: neither component is the
falsy zero. -/
def planStopCoordOk (st : PlanStop) : Bool :=
  decide (¬ (st.lat = 0 ∨ st.lng = 0))

/-- What the candidate filter of buildGreedyTour guarantees about any
entry its scan can return: not yet used, fits the remaining capacity,
and carries a coordinate with no falsy component. -/
def goodEntry (rem : ℚ) (a : PoolEntry) : Prop :=
  a.used = false ∧ a.demand.qtyEstimatedKg ≤ rem ∧
  ∃ g, a.demand.geo = some g ∧ ¬(g.lat = 0 ∨ g.lng = 0)

/-- What the candidate filter of buildGreedyTours guarantees about any
demand its scan can return. -/
def goodPlanDemand (rem : ℚ) (d : PlanDemand) : Prop :=
  d.assigned = false ∧ d.kg ≤ rem ∧ ¬(d.lat = 0 ∨ d.lng = 0)

/-- Strict coordinate check on a selected stop of buildGreedyTour. -/
def selectedGeoOk (sel : SelectedStop) : Bool :=
  match sel.demand.geo with
  | none => false
  | some g => decide (¬ (g.lat = 0 ∨ g.lng = 0))

/-- Stop statuses (Tour model, embedded stop schema). -/
inductive StopStatus
  | SCHEDULED | IN_PROGRESS | COMPLETED | PARTIAL | NOT_READY
  deriving DecidableEq

/-- Tour statuses (Tour model). -/
inductive TourStatus
  | PLANNED | IN_PROGRESS | COMPLETED | CANCELED
  deriving DecidableEq

/-- The stop statuses the controllers treat as done when deriving the
tour status (the COMPLETED, NOT_READY, PARTIAL membership check). -/
def stopDone (s : StopStatus) : Bool :=
  match s with
  | .COMPLETED | .NOT_READY | .PARTIAL => true
  | _ => false

/-- An embedded stop document. sid models the generated embedded
document id the routes address stops by. -/
structure Stop where
  sid : ℕ
  demand : ℕ
  order : ℕ
  status : StopStatus
  plannedKg : ℚ
  actualKg : Option ℚ
  smallTires : Option ℚ
  mediumTires : Option ℚ
  geo : Option GeoPoint
  priority : ℚ
  completedAt : Option ℚ
  notes : Option String
  deriving DecidableEq

/-- A Tour document (stored total distance elided: no modeled operation
reads it). -/
structure TourDoc where
  id : ℕ
  driver : ℕ
  date : ℤ
  status : TourStatus
  capacityKg : ℚ
  remainingCapacityKg : ℚ
  stops : List Stop
  deriving DecidableEq

/-- A Vehicle document (populated onto the driver). -/
structure VehicleDoc where
  id : ℕ
  active : Bool
  capacityKg : ℚ
  deriving DecidableEq

/-- A Driver document with its populated vehicle. -/
structure DriverDoc where
  id : ℕ
  active : Bool
  vehicle : Option VehicleDoc
  maxDailyTours : Option ℕ
  deriving DecidableEq

/-- The database state: the three collections the dispatch core touches.
Tour dates are modeled at day granularity, as requestTour normalizes
every date to the start of day before storing and querying. -/
structure DB where
  drivers : List DriverDoc
  tours : List TourDoc
  demands : List DemandDoc
  deriving DecidableEq

/-- Tour.findById. -/
def findTour (db : DB) (tourId : ℕ) : Option TourDoc :=
  db.tours.find? (fun t => decide (t.id = tourId))

/-- tour.stops.id(stopId). -/
def findStop (t : TourDoc) (stopId : ℕ) : Option Stop :=
  t.stops.find? (fun s => decide (s.sid = stopId))

/-- Driver.findById (with the vehicle already populated on the doc). -/
def findDriver (db : DB) (driverId : ℕ) : Option DriverDoc :=
  db.drivers.find? (fun d => decide (d.id = driverId))

/-- tour.save(): write the updated tour document back over every stored
tour with that id. -/
def saveTour (db : DB) (tourId : ℕ) (t : TourDoc) : DB :=
  { db with tours := db.tours.map (fun u => if u.id = tourId then t else u) }

/-- Demand.findByIdAndUpdate with an update function for the $set /
$unset payload. -/
def updateDemand (db : DB) (demandId : ℕ) (f : DemandDoc → DemandDoc) : DB :=
  { db with demands := db.demands.map (fun d => if d.id = demandId then f d else d) }

/-- The typed failures of the stop and tour transition endpoints. -/
inductive ApiError
  | missingCounts
  | negativeCounts
  | tourNotFound
  | stopNotFound
  | invalidState
  deriving DecidableEq

/-- Kilograms per small tire (SMALL_TIRE_KG). -/
def SMALL_TIRE_KG : ℚ := 8.58

/-- Kilograms per medium tire (MEDIUM_TIRE_KG). -/
def MEDIUM_TIRE_KG : ℚ := 59

/-- completeStop (tours.controller.js, lines 388 to 466): validate the
tire counts, look up tour and stop, then set the stop status to
COMPLETED with the computed actual kilograms and completion time, mirror
the demand status to COMPLETED, recompute the tour status from the done
check over all stops, and save. No check of the prior stop status is
performed anywhere on this path. -/
def completeStopCtrl (db : DB) (tourId stopId : ℕ)
    (smallTires mediumTires : Option ℚ) (notes : Option String) (now : ℚ) :
    Except ApiError DB :=
  match smallTires, mediumTires with
  | none, _ => .error .missingCounts
  | _, none => .error .missingCounts
  | some st, some mt =>
    if st < 0 ∨ mt < 0 then .error .negativeCounts
    else
      match findTour db tourId with
      | none => .error .tourNotFound
      | some tour =>
        match findStop tour stopId with
        | none => .error .stopNotFound
        | some stop =>
          let actualKg : ℚ := ((round (st * SMALL_TIRE_KG + mt * MEDIUM_TIRE_KG) : ℤ) : ℚ)
          let stop1 : Stop :=
            { stop with status := .COMPLETED, actualKg := some actualKg
                        smallTires := some st, mediumTires := some mt
                        completedAt := some now
                        notes := if notes.isSome then notes else stop.notes }
          let stops1 := tour.stops.map (fun s => if s.sid = stopId then stop1 else s)
          let allDone := stops1.all (fun s => stopDone s.status)
          let tour1 : TourDoc :=
            { tour with stops := stops1
                        status := if allDone then .COMPLETED else .IN_PROGRESS }
          let db1 := updateDemand db stop.demand (fun d => { d with status := .COMPLETED })
          .ok (saveTour db1 tourId tour1)

/-- The handler of tours.controller.js lines 523 to 592 (named
partialStop in the source; renamed here because of the Lean keyword):
identical shape to completeStop but sets PARTIAL on stop and demand and
keeps the demand assignment. -/
def markPartialStopCtrl (db : DB) (tourId stopId : ℕ)
    (smallTires mediumTires : Option ℚ) (notes : Option String) (now : ℚ) :
    Except ApiError DB :=
  match smallTires, mediumTires with
  | none, _ => .error .missingCounts
  | _, none => .error .missingCounts
  | some st, some mt =>
    if st < 0 ∨ mt < 0 then .error .negativeCounts
    else
      match findTour db tourId with
      | none => .error .tourNotFound
      | some tour =>
        match findStop tour stopId with
        | none => .error .stopNotFound
        | some stop =>
          let actualKg : ℚ := ((round (st * SMALL_TIRE_KG + mt * MEDIUM_TIRE_KG) : ℤ) : ℚ)
          let stop1 : Stop :=
            { stop with status := .PARTIAL, actualKg := some actualKg
                        smallTires := some st, mediumTires := some mt
                        completedAt := some now
                        notes := if notes.isSome then notes else stop.notes }
          let stops1 := tour.stops.map (fun s => if s.sid = stopId then stop1 else s)
          let allDone := stops1.all (fun s => stopDone s.status)
          let tour1 : TourDoc :=
            { tour with stops := stops1
                        status := if allDone then .COMPLETED else .IN_PROGRESS }
          let db1 := updateDemand db stop.demand (fun d => { d with status := .PARTIAL })
          .ok (saveTour db1 tourId tour1)

/-- notReadyStop (tours.controller.js, lines 474 to 516): set the stop
status to NOT_READY, set the demand status to NOT_READY and $unset its
assigned record, recompute the tour status, and save. -/
def notReadyStopCtrl (db : DB) (tourId stopId : ℕ) (reason : Option String)
    (now : ℚ) : Except ApiError DB :=
  match findTour db tourId with
  | none => .error .tourNotFound
  | some tour =>
    match findStop tour stopId with
    | none => .error .stopNotFound
    | some stop =>
      let stop1 : Stop :=
        { stop with status := .NOT_READY, completedAt := some now
                    notes := if reason.isSome then reason else stop.notes }
      let stops1 := tour.stops.map (fun s => if s.sid = stopId then stop1 else s)
      let allDone := stops1.all (fun s => stopDone s.status)
      let tour1 : TourDoc :=
        { tour with stops := stops1
                    status := if allDone then .COMPLETED else .IN_PROGRESS }
      let db1 := updateDemand db stop.demand
        (fun d => { d with status := .NOT_READY, assigned := none })
      .ok (saveTour db1 tourId tour1)

/-- startTour (tours.controller.js, lines 351 to 380): only legal from
PLANNED; the single invalid state guard of the controller. -/
def startTourCtrl (db : DB) (tourId : ℕ) : Except ApiError DB :=
  match findTour db tourId with
  | none => .error .tourNotFound
  | some tour =>
    if tour.status = .PLANNED then
      .ok (saveTour db tourId { tour with status := .IN_PROGRESS })
    else .error .invalidState

/-- A stop transition request, for reasoning about sequences of the
three stop endpoints. -/
inductive StopAction
  | complete (stopId : ℕ) (smallTires mediumTires : Option ℚ) (notes : Option String)
  | markPartial (stopId : ℕ) (smallTires mediumTires : Option ℚ) (notes : Option String)
  | notReady (stopId : ℕ) (reason : Option String)
  deriving DecidableEq

/-- Dispatch one stop transition to its controller. -/
def applyStopAction (db : DB) (tourId : ℕ) (a : StopAction) (now : ℚ) :
    Except ApiError DB :=
  match a with
  | .complete sid st mt notes => completeStopCtrl db tourId sid st mt notes now
  | .markPartial sid st mt notes => markPartialStopCtrl db tourId sid st mt notes now
  | .notReady sid reason => notReadyStopCtrl db tourId sid reason now

/-- Apply a sequence of stop transitions, stopping at the first typed
failure (each failed request mutates nothing). -/
def applyStopActions (db : DB) (tourId : ℕ) (now : ℚ) :
    List StopAction → Except ApiError DB
  | [] => .ok db
  | a :: rest =>
    match applyStopAction db tourId a now with
    | .error e => .error e
    | .ok db1 => applyStopActions db1 tourId now rest

/-- The eligible demand filter of the requestTour pool fetch
(tours.controller.js, lines 232 to 242): live SIGNUS estado, status NEW
or CONFIRMED, no assigned.driverId, geo coordinates present, positive
estimated quantity. -/
def eligibleDemand (d : DemandDoc) : Bool :=
  decide (d.estadoCod = "EN_CURSO" ∨ d.estadoCod = "ASIGNADA" ∨ d.estadoCod = "EN_TRANSITO") &&
  decide (d.status = DemandStatus.NEW ∨ d.status = DemandStatus.CONFIRMED) &&
  d.assigned.isNone &&
  d.geo.isSome &&
  decide (0 < d.qtyEstimatedKg)

/-- MongoDB ascending order on optional deadlines (missing sorts
first). -/
def deadlineLe (a b : Option ℚ) : Bool :=
  match a, b with
  | none, _ => true
  | some _, none => false
  | some x, some y => decide (x ≤ y)

/-- The sort of the pool fetch: priority descending, then deadline
ascending. -/
def demandSortLe (a b : DemandDoc) : Bool :=
  decide (b.priority < a.priority) ||
  (decide (a.priority = b.priority) && deadlineLe a.deadlineAt b.deadlineAt)

/-- The eligible pool fetch of requestTour: filter, sort by descending
priority then ascending deadline, cap at 200 documents. -/
def fetchEligibleDemands (db : DB) : List DemandDoc :=
  (((db.demands.filter eligibleDemand).mergeSort demandSortLe).take 200)

/-- The HTTP level outcome of requestTour. -/
inductive ReqResult
  | authRequired
  | locationRequired
  | driverNotFound
  | vehicleRequired
  | vehicleInactive
  | reusedTour (t : TourDoc)
  | limitReached (count maxTours : ℕ)
  | noEligibleDemands
  | noneFit (capacityKg : ℚ)
  | created (t : TourDoc)
  deriving DecidableEq

/-- Tour.create: insert the new tour document. -/
def createTourWrite (db : DB) (t : TourDoc) : DB :=
  { db with tours := db.tours ++ [t] }

/-- Demand.updateMany over the consumed demand ids: set status SCHEDULED
and write the assignment record. -/
def assignDemandsWrite (db : DB) (demandIds : List ℕ) (driverId tourId : ℕ)
    (day : ℤ) : DB :=
  { db with demands := db.demands.map (fun d =>
      if d.id ∈ demandIds then
        { d with status := .SCHEDULED
                 assigned := some { driverId := driverId, tourId := tourId, date := day } }
      else d) }

/-- requestTour (tours.controller.js, lines 139 to 344). Returns the
HTTP level outcome together with the list of database states after each
persisted write: the source awaits Tour.create and Demand.updateMany as
two separate operations with no transaction, so the intermediate state
after the create and before the assignment is a real database state.
freshTourId models the generated object id of the created tour; the
generated stop ids are modeled by the 1 based stop order. -/
noncomputable def requestTourCtrl (db : DB) (driverIdFromToken : Option ℕ)
    (lat lng : ℚ) (date : Option ℤ) (todayDate : ℤ) (freshTourId : ℕ) :
    ReqResult × List DB :=
  match driverIdFromToken with
  | none => (.authRequired, [db])
  | some driverId =>
    if lat = 0 ∨ lng = 0 then (.locationRequired, [db])
    else
      match findDriver db driverId with
      | none => (.driverNotFound, [db])
      | some driver =>
        if driver.active = false then (.driverNotFound, [db])
        else
          match driver.vehicle with
          | none => (.vehicleRequired, [db])
          | some vehicle =>
            if vehicle.active = false then (.vehicleInactive, [db])
            else
              let day := date.getD todayDate
              match db.tours.find? (fun t =>
                  decide (t.driver = driverId) && decide (t.date = day) &&
                  (decide (t.status = TourStatus.PLANNED) ||
                   decide (t.status = TourStatus.IN_PROGRESS))) with
              | some existingTour => (.reusedTour existingTour, [db])
              | none =>
                let toursTodayCount :=
                  (db.tours.filter (fun t =>
                    decide (t.driver = driverId) && decide (t.date = day))).length
                let maxDailyTours := jsOrNat driver.maxDailyTours 3
                if maxDailyTours ≤ toursTodayCount then
                  (.limitReached toursTodayCount maxDailyTours, [db])
                else
                  let demands := fetchEligibleDemands db
                  if demands.isEmpty then (.noEligibleDemands, [db])
                  else
                    let capacityKg := jsOr vehicle.capacityKg 3200
                    let result := buildGreedyTour demands (some ⟨lat, lng⟩) capacityKg
                    if result.selected.isEmpty then (.noneFit capacityKg, [db])
                    else
                      let stopDocs := result.selected.mapIdx (fun idx sel =>
                        { sid := idx + 1, demand := sel.demand.id, order := idx + 1
                          status := StopStatus.SCHEDULED
                          plannedKg := sel.demand.qtyEstimatedKg
                          actualKg := none, smallTires := none, mediumTires := none
                          geo := sel.demand.geo, priority := sel.demand.priority
                          completedAt := none, notes := none : Stop })
                      let tour : TourDoc :=
                        { id := freshTourId, driver := driverId, date := day
                          status := .PLANNED, capacityKg := capacityKg
                          remainingCapacityKg := result.remainingCapacityKg
                          stops := stopDocs }
                      let db1 := createTourWrite db tour
                      let db2 := assignDemandsWrite db1
                        (result.selected.map (fun s => s.demand.id)) driverId freshTourId day
                      (.created tour, [db, db1, db2])

/-- The status of one stop of one tour in a database state. -/
def getStopStatus (db : DB) (tourId stopId : ℕ) : Option StopStatus :=
  (findTour db tourId).bind (fun t => (findStop t stopId).map (fun s => s.status))

/-- The first demand of the claim C4 scenario: quantity 2000, coordinate
(0, 0), priority 80, deadline one day out. -/
def c4d1 : DemandDoc :=
  { id := 1, estadoCod := "EN_CURSO", status := .NEW, assigned := none
    geo := some ⟨0, 0⟩, qtyEstimatedKg := 2000, priority := 80
    requestedAt := none, deadlineAt := some 86400000 }

/-- The second demand of the claim C4 scenario: quantity 1500,
coordinate (0, 1), priority 10. -/
def c4d2 : DemandDoc :=
  { id := 2, estadoCod := "EN_CURSO", status := .NEW, assigned := none
    geo := some ⟨0, 1⟩, qtyEstimatedKg := 1500, priority := 10
    requestedAt := none, deadlineAt := none }

/-- The C4 scenario demands translated off the zero axes: demand 1 moved
to (1, 1). -/
def c4s1 : DemandDoc := { c4d1 with geo := some ⟨1, 1⟩ }

/-- The C4 scenario demands translated off the zero axes: demand 2 moved
to (1, 2). -/
def c4s2 : DemandDoc := { c4d2 with geo := some ⟨1, 2⟩ }

/-- The tour status of the referenced tour is the derived function of
its stops statuses (COMPLETED when every stop is done, IN_PROGRESS
otherwise). -/
def statusDerived (db : DB) (tourId : ℕ) : Prop :=
  ∀ t, findTour db tourId = some t →
    t.status = (if t.stops.all (fun s => stopDone s.status) then TourStatus.COMPLETED
                else TourStatus.IN_PROGRESS)

/-- Claim C1 scenario: a stop of an in progress tour, consuming demand
5, still SCHEDULED. -/
def c1stop : Stop :=
  { sid := 11, demand := 5, order := 1, status := .SCHEDULED, plannedKg := 100
    actualKg := none, smallTires := none, mediumTires := none
    geo := some ⟨1, 1⟩, priority := 0, completedAt := none, notes := none }

/-- Claim C1 scenario tour. -/
def c1tour : TourDoc :=
  { id := 1, driver := 7, date := 0, status := .IN_PROGRESS, capacityKg := 3200
    remainingCapacityKg := 3100, stops := [c1stop] }

/-- Claim C1 scenario demand: currently assigned to tour 1. -/
def c1demand : DemandDoc :=
  { id := 5, estadoCod := "EN_CURSO", status := .SCHEDULED
    assigned := some { driverId := 7, tourId := 1, date := 0 }
    geo := some ⟨1, 1⟩, qtyEstimatedKg := 100, priority := 0
    requestedAt := none, deadlineAt := none }

/-- Claim C1 scenario database. -/
def c1db : DB := { drivers := [], tours := [c1tour], demands := [c1demand] }

/-- The C1 demand after the notReadyStop release. -/
def c1demandAfter : DemandDoc := { c1demand with status := .NOT_READY, assigned := none }

/-- The C1 stop after the notReadyStop release. -/
def c1stopAfter : Stop := { c1stop with status := .NOT_READY, completedAt := some 5 }

/-- The C1 tour after the notReadyStop release (its only stop is now
terminal, so the derived status is COMPLETED). -/
def c1tourAfter : TourDoc := { c1tour with status := .COMPLETED, stops := [c1stopAfter] }

/-- The C1 database after the notReadyStop release. -/
def c1dbAfter : DB := { drivers := [], tours := [c1tourAfter], demands := [c1demandAfter] }

/-- Claim C3 scenario: a stop that is already terminal (PARTIAL). -/
def c3stop : Stop :=
  { sid := 11, demand := 5, order := 1, status := .PARTIAL, plannedKg := 100
    actualKg := some 40, smallTires := some 0, mediumTires := some 0
    geo := some ⟨1, 1⟩, priority := 0, completedAt := some 1, notes := none }

/-- Claim C3 scenario tour (already COMPLETED: its stop is terminal). -/
def c3tour : TourDoc :=
  { id := 1, driver := 7, date := 0, status := .COMPLETED, capacityKg := 3200
    remainingCapacityKg := 3100, stops := [c3stop] }

/-- Claim C3 scenario demand (already PARTIAL). -/
def c3demand : DemandDoc :=
  { id := 5, estadoCod := "EN_CURSO", status := .PARTIAL
    assigned := some { driverId := 7, tourId := 1, date := 0 }
    geo := some ⟨1, 1⟩, qtyEstimatedKg := 100, priority := 0
    requestedAt := none, deadlineAt := none }

/-- Claim C3 scenario database. -/
def c3db : DB := { drivers := [], tours := [c3tour], demands := [c3demand] }

/-- Claim C6 witness scenario: one SCHEDULED stop on an in progress
tour. -/
def c6stop : Stop :=
  { sid := 11, demand := 5, order := 1, status := .SCHEDULED, plannedKg := 100
    actualKg := none, smallTires := none, mediumTires := none
    geo := some ⟨1, 1⟩, priority := 0, completedAt := none, notes := none }

/-- Claim C6 witness tour. -/
def c6tour : TourDoc :=
  { id := 1, driver := 7, date := 0, status := .IN_PROGRESS, capacityKg := 3200
    remainingCapacityKg := 3100, stops := [c6stop] }

/-- Claim C6 witness demand. -/
def c6demand : DemandDoc :=
  { id := 5, estadoCod := "EN_CURSO", status := .SCHEDULED
    assigned := some { driverId := 7, tourId := 1, date := 0 }
    geo := some ⟨1, 1⟩, qtyEstimatedKg := 100, priority := 0
    requestedAt := none, deadlineAt := none }

/-- Claim C6 witness database. -/
def c6db : DB := { drivers := [], tours := [c6tour], demands := [c6demand] }

/-- The C6 stop after marking it not ready. -/
def c6stopAfter : Stop := { c6stop with status := .NOT_READY, completedAt := some 0 }

/-- The C6 tour after the transition (all stops terminal). -/
def c6tourAfter : TourDoc := { c6tour with status := .COMPLETED, stops := [c6stopAfter] }

/-- The C6 database after the transition. -/
def c6dbAfter : DB :=
  { drivers := [], tours := [c6tourAfter]
    demands := [{ c6demand with status := .NOT_READY, assigned := none }] }

/-- Claim C9 witness: a driver with an active vehicle. -/
def c9driver : DriverDoc :=
  { id := 7, active := true
    vehicle := some { id := 1, active := true, capacityKg := 3200 }
    maxDailyTours := none }

/-- Claim C9 witness: an existing PLANNED tour for driver 7 on day
100. -/
def c9tour : TourDoc :=
  { id := 1, driver := 7, date := 100, status := .PLANNED, capacityKg := 3200
    remainingCapacityKg := 0, stops := [] }

/-- Claim C9 witness database. -/
def c9db : DB := { drivers := [c9driver], tours := [c9tour], demands := [] }

/-- Claim C2 scenario: a driver with an active vehicle. -/
def c2driver : DriverDoc :=
  { id := 7, active := true
    vehicle := some { id := 1, active := true, capacityKg := 3200 }
    maxDailyTours := none }

/-- Claim C2 scenario: one eligible demand at (1, 1). -/
def c2demand : DemandDoc :=
  { id := 5, estadoCod := "EN_CURSO", status := .NEW, assigned := none
    geo := some ⟨1, 1⟩, qtyEstimatedKg := 100, priority := 0
    requestedAt := none, deadlineAt := none }

/-- Claim C2 scenario database: no tours yet. -/
def c2db : DB := { drivers := [c2driver], tours := [], demands := [c2demand] }

/-- The tour requestTour creates in the C2 scenario. -/
def c2tour : TourDoc :=
  { id := 1, driver := 7, date := 0, status := .PLANNED, capacityKg := 3200
    remainingCapacityKg := 3100
    stops := [{ sid := 1, demand := 5, order := 1, status := .SCHEDULED
                plannedKg := 100, actualKg := none, smallTires := none
                mediumTires := none, geo := some ⟨1, 1⟩, priority := 0
                completedAt := none, notes := none }] }

/-- The intermediate database state of the C2 scenario: after
Tour.create, before Demand.updateMany. -/
def c2dbMid : DB := { drivers := [c2driver], tours := [c2tour], demands := [c2demand] }

/-- The final database state of the C2 scenario, after the demand
assignment write. -/
def c2dbFinal : DB :=
  { drivers := [c2driver], tours := [c2tour]
    demands := [{ c2demand with
                  status := .SCHEDULED,
                  assigned := some { driverId := 7, tourId := 1, date := 0 } }] }

/-! ## Theorems -/

/-- The clamp written with an if in the source equals the max form the
specification uses. -/
theorem if_neg_clamp_eq_max (a : ℚ) : (if a < 0 then 0 else a) = max 0 a := by
  rcases lt_or_le a 0 with h | h
  · simp [h, max_eq_left h.le]
  · simp [not_lt.mpr h, max_eq_right h]

/-- Rounding is monotone on rationals. -/
theorem round_mono_q {x y : ℚ} (h : x ≤ y) : round x ≤ round y := by
  rw [round_eq, round_eq]
  exact Int.floor_mono (by linarith)

/-- The implemented score coincides with the formula as the
specification words it, whenever the request timestamp is present. -/
theorem scoreDemand_eq_spec (r : ℚ) (dl : Option ℚ) (kg t : ℚ) :
    scoreDemand (some r) dl kg t = scoreSpec r dl kg t := by
  cases dl with
  | none =>
    simp only [scoreDemand, scoreSpec, if_neg_clamp_eq_max]
    exact congrArg round (by ring)
  | some d =>
    simp only [scoreDemand, scoreSpec, if_neg_clamp_eq_max]
    exact congrArg round (by ring)

/-- Claim C7 (amended): for every demand with a request timestamp, the
priority score equals round(100 * (0.4 * ageScore + 0.4 * deadlineScore
+ 0.2 * weightScore)) with the clamped component scores and the 999 day
sentinel for a missing deadline; the result is an integer that is always
at most 100, and it lies in [0, 100] whenever the quantity is
nonnegative (the source does not clamp weightScore from below, so a
negative quantity can drive the score below 0). -/
theorem c7_score_formula_and_range (r : ℚ) (dl : Option ℚ) (kg t : ℚ) :
    scoreDemand (some r) dl kg t = scoreSpec r dl kg t ∧
    scoreDemand (some r) dl kg t ≤ 100 ∧
    (0 ≤ kg → 0 ≤ scoreDemand (some r) dl kg t) := by
  refine ⟨scoreDemand_eq_spec r dl kg t, ?_, ?_⟩
  · rw [scoreDemand_eq_spec]
    have h100 : round ((100 : ℚ)) = 100 := by norm_num [round_eq]
    cases dl with
    | none =>
      have hA1 : min (max 0 ((t - r) / msPerDay) / 30) 1 ≤ 1 := min_le_right _ _
      have hD0 : (0 : ℚ) ≤ min ((999 : ℚ) / 30) 1 := le_min (by norm_num) zero_le_one
      have hW1 : min (kg / 3000) 1 ≤ 1 := min_le_right _ _
      calc scoreSpec r none kg t ≤ round ((100 : ℚ)) := by
            apply round_mono_q
            simp only [scoreSpec]
            nlinarith [hA1, hD0, hW1]
        _ = 100 := h100
    | some d =>
      have hA1 : min (max 0 ((t - r) / msPerDay) / 30) 1 ≤ 1 := min_le_right _ _
      have hD0 : (0 : ℚ) ≤ min (max 0 ((d - t) / msPerDay) / 30) 1 :=
        le_min (by positivity) zero_le_one
      have hW1 : min (kg / 3000) 1 ≤ 1 := min_le_right _ _
      calc scoreSpec r (some d) kg t ≤ round ((100 : ℚ)) := by
            apply round_mono_q
            simp only [scoreSpec]
            nlinarith [hA1, hD0, hW1]
        _ = 100 := h100
  · intro hkg
    rw [scoreDemand_eq_spec]
    have h0 : round ((0 : ℚ)) = 0 := by norm_num [round_eq]
    cases dl with
    | none =>
      have hA0 : (0 : ℚ) ≤ min (max 0 ((t - r) / msPerDay) / 30) 1 :=
        le_min (by positivity) zero_le_one
      have hD1 : min ((999 : ℚ) / 30) 1 ≤ 1 := min_le_right _ _
      have hW0 : (0 : ℚ) ≤ min (kg / 3000) 1 := le_min (by positivity) zero_le_one
      calc (0 : ℤ) = round ((0 : ℚ)) := h0.symm
        _ ≤ scoreSpec r none kg t := by
            apply round_mono_q
            simp only [scoreSpec]
            nlinarith [hA0, hD1, hW0]
    | some d =>
      have hA0 : (0 : ℚ) ≤ min (max 0 ((t - r) / msPerDay) / 30) 1 :=
        le_min (by positivity) zero_le_one
      have hD1 : min (max 0 ((d - t) / msPerDay) / 30) 1 ≤ 1 := min_le_right _ _
      have hW0 : (0 : ℚ) ≤ min (kg / 3000) 1 := le_min (by positivity) zero_le_one
      calc (0 : ℤ) = round ((0 : ℚ)) := h0.symm
        _ ≤ scoreSpec r (some d) kg t := by
            apply round_mono_q
            simp only [scoreSpec]
            nlinarith [hA0, hD1, hW0]

/-- Witness for C7 at a concrete demand. -/
theorem c7_score_formula_and_range_witness :
    scoreDemand (some 0) none 1200 0 = scoreSpec 0 none 1200 0 ∧
    scoreDemand (some 0) none 1200 0 ≤ 100 ∧
    ((0 : ℚ) ≤ 1200 ∧ 0 ≤ scoreDemand (some 0) none 1200 0) :=
  ⟨(c7_score_formula_and_range 0 none 1200 0).1,
   (c7_score_formula_and_range 0 none 1200 0).2.1,
   by norm_num, (c7_score_formula_and_range 0 none 1200 0).2.2 (by norm_num)⟩

/-- Claim C7 counterexample: a demand with a negative estimated quantity
(quantity is not clamped from below) scores -200, outside the promised
range [0, 100]. -/
theorem c7_negative_quantity_counterexample :
    scoreDemand (some 0) none (-30000) 0 = -200 ∧
    scoreDemand (some 0) none (-30000) 0 < 0 := by
  constructor <;>
    norm_num [scoreDemand, msPerDay, min_def, max_def, round_eq]

/-- Claim C8 (confirmed): the priority score is monotonically
non-decreasing in quantity, non-decreasing as requestedAt moves earlier,
and non-decreasing as deadlineAt approaches asOf from the future, all
other inputs held fixed. -/
theorem c8_score_monotone (r r2 dl dl2 kg kg2 t : ℚ) :
    (kg ≤ kg2 →
      scoreDemand (some r) (some dl) kg t ≤ scoreDemand (some r) (some dl) kg2 t) ∧
    (r2 ≤ r →
      scoreDemand (some r) (some dl) kg t ≤ scoreDemand (some r2) (some dl) kg t) ∧
    (t ≤ dl2 → dl2 ≤ dl →
      scoreDemand (some r) (some dl) kg t ≤ scoreDemand (some r) (some dl2) kg t) := by
  have hms : (0 : ℚ) < msPerDay := by norm_num [msPerDay]
  refine ⟨?_, ?_, ?_⟩
  · intro h
    rw [scoreDemand_eq_spec, scoreDemand_eq_spec]
    apply round_mono_q
    simp only [scoreSpec]
    have hW : min (kg / 3000) 1 ≤ min (kg2 / 3000) 1 := by gcongr
    linarith
  · intro h
    rw [scoreDemand_eq_spec, scoreDemand_eq_spec]
    apply round_mono_q
    simp only [scoreSpec]
    have hA : min (max 0 ((t - r) / msPerDay) / 30) 1 ≤
        min (max 0 ((t - r2) / msPerDay) / 30) 1 := by
      gcongr
    linarith
  · intro h1 h2
    rw [scoreDemand_eq_spec, scoreDemand_eq_spec]
    apply round_mono_q
    simp only [scoreSpec]
    have hD : min (max 0 ((dl2 - t) / msPerDay) / 30) 1 ≤
        min (max 0 ((dl - t) / msPerDay) / 30) 1 := by
      gcongr
    linarith

/-- Witness for C8 at concrete demands. -/
theorem c8_score_monotone_witness :
    ((0 : ℚ) ≤ 1000 ∧
      scoreDemand (some 0) (some 86400000) 0 0 ≤
        scoreDemand (some 0) (some 86400000) 1000 0) ∧
    ((-86400000 : ℚ) ≤ 0 ∧
      scoreDemand (some 0) (some 86400000) 500 0 ≤
        scoreDemand (some (-86400000)) (some 86400000) 500 0) ∧
    ((0 : ℚ) ≤ 86400000 ∧ (86400000 : ℚ) ≤ 172800000 ∧
      scoreDemand (some 0) (some 172800000) 500 0 ≤
        scoreDemand (some 0) (some 86400000) 500 0) :=
  ⟨⟨by norm_num, (c8_score_monotone 0 0 86400000 86400000 0 1000 0).1 (by norm_num)⟩,
   ⟨by norm_num, (c8_score_monotone 0 (-86400000) 86400000 86400000 500 500 0).2.1 (by norm_num)⟩,
   ⟨by norm_num, by norm_num,
     (c8_score_monotone 0 0 172800000 86400000 500 500 0).2.2 (by norm_num) (by norm_num)⟩⟩

/-- The two argument arctangent is nonnegative when its first argument
is. -/
theorem atan2_nonneg {y x : ℝ} (hy : 0 ≤ y) : 0 ≤ atan2 y x := by
  unfold atan2
  split_ifs with h1 h2 h3 h4 h5
  · rw [← Real.arctan_zero]
    exact Real.arctan_strictMono.monotone (div_nonneg hy h1.le)
  · linarith
  · have ha := Real.neg_pi_div_two_lt_arctan (y / x)
    have hpi := Real.pi_pos
    linarith
  · have hpi := Real.pi_pos
    linarith
  · linarith
  · exact le_refl 0

/-- The haversine distance is nonnegative. -/
theorem haversineKm_nonneg (a b : GeoPoint) : 0 ≤ haversineKm a b := by
  simp only [haversineKm]
  exact mul_nonneg (by norm_num)
    (mul_nonneg (by norm_num) (atan2_nonneg (Real.sqrt_nonneg _)))

/-- The haversine distance of a point to itself is zero. -/
theorem haversineKm_self (a : GeoPoint) : haversineKm a a = 0 := by
  have h1 : atan2 0 1 = 0 := by
    simp [atan2, Real.arctan_zero]
  simp [haversineKm, h1]

/-- Whatever entry the candidate scan step of buildGreedyTour reports as
best passed every filter: it preserves goodness of the accumulator. -/
theorem scanStep_spec (pos : Option GeoPoint) (rem : ℚ)
    (acc : Option (ℕ × PoolEntry × ℝ) × Option ℝ) (idx : ℕ) (e : PoolEntry)
    (h : ∀ i a dist, acc.1 = some (i, a, dist) → goodEntry rem a) :
    ∀ i a dist, (scanStep pos rem acc idx e).1 = some (i, a, dist) → goodEntry rem a := by
  intro i a dist hsome
  by_cases hu : e.used
  · simp only [scanStep, if_pos hu] at hsome; exact h _ _ _ hsome
  · by_cases hq : rem < e.demand.qtyEstimatedKg
    · simp only [scanStep, if_neg hu, if_pos hq] at hsome; exact h _ _ _ hsome
    · cases hgeo : e.demand.geo with
      | none =>
        simp only [scanStep, if_neg hu, if_neg hq, hgeo] at hsome
        exact h _ _ _ hsome
      | some g =>
        by_cases hz : g.lat = 0 ∨ g.lng = 0
        · simp only [scanStep, if_neg hu, if_neg hq, hgeo, if_pos hz] at hsome
          exact h _ _ _ hsome
        · cases hdist : distanceKm pos (some g) with
          | none =>
            simp only [scanStep, if_neg hu, if_neg hq, hgeo, if_neg hz, hdist] at hsome
            exact h _ _ _ hsome
          | some dv =>
            have hused : e.used = false := by
              revert hu; cases e.used <;> simp
            cases hacc : acc.2 with
            | none =>
              simp only [scanStep, if_neg hu, if_neg hq, hgeo, if_neg hz, hdist,
                hacc] at hsome
              simp only [Option.some.injEq, Prod.mk.injEq] at hsome
              obtain ⟨-, ha, -⟩ := hsome
              exact ha ▸ ⟨hused, not_lt.mp hq, g, hgeo, hz⟩
            | some b =>
              by_cases hlt : dv / (1 + (e.demand.priority : ℝ) / 50) < b
              · simp only [scanStep, if_neg hu, if_neg hq, hgeo, if_neg hz, hdist,
                  hacc, if_pos hlt] at hsome
                simp only [Option.some.injEq, Prod.mk.injEq] at hsome
                obtain ⟨-, ha, -⟩ := hsome
                exact ha ▸ ⟨hused, not_lt.mp hq, g, hgeo, hz⟩
              · simp only [scanStep, if_neg hu, if_neg hq, hgeo, if_neg hz, hdist,
                  hacc, if_neg hlt] at hsome
                exact h _ _ _ hsome

/-- Goodness propagates through the whole scan of the pool. -/
theorem scanPool_spec (pos : Option GeoPoint) (rem : ℚ) :
    ∀ (l : List PoolEntry) (idx : ℕ) (acc : Option (ℕ × PoolEntry × ℝ) × Option ℝ),
      (∀ i a dist, acc.1 = some (i, a, dist) → goodEntry rem a) →
      ∀ i a dist, (scanPool pos rem l idx acc).1 = some (i, a, dist) → goodEntry rem a := by
  intro l
  induction l with
  | nil => intro idx acc h; exact h
  | cons e rest ih =>
    intro idx acc h
    simp only [scanPool]
    exact ih (idx + 1) _ (scanStep_spec pos rem acc idx e h)

/-- The best candidate returned by findBest passed every filter. -/
theorem findBest_spec (pool : List PoolEntry) (pos : Option GeoPoint) (rem : ℚ)
    (i : ℕ) (a : PoolEntry) (dist : ℝ)
    (h : findBest pool pos rem = some (i, a, dist)) : goodEntry rem a := by
  refine scanPool_spec pos rem pool 0 (none, none) ?_ i a dist h
  intro i a dist hcontra
  simp at hcontra

/-- Unfolding lemma for one pass of the buildGreedyTour loop. -/
theorem greedyLoop_succ (n : ℕ) (s : BuildState) :
    greedyLoop (n + 1) s =
      if s.remainingCapacity ≤ 0 then s
      else
        match findBest s.pool s.currentPos s.remainingCapacity with
        | none => s
        | some (idx, best, dist) =>
          greedyLoop n
            { pool := s.pool.set idx { best with used := true }
              remainingCapacity := s.remainingCapacity - best.demand.qtyEstimatedKg
              currentPos := best.demand.geo
              totalDistanceKm := s.totalDistanceKm + dist
              selected := s.selected ++ [⟨best.demand, jsToFixed2 dist⟩] } := rfl

/-- Planned kilograms add over concatenation. -/
theorem sumPlannedKg_append (l1 l2 : List SelectedStop) :
    sumPlannedKg (l1 ++ l2) = sumPlannedKg l1 + sumPlannedKg l2 := by
  simp [sumPlannedKg]

/-- The loop conserves remaining capacity plus selected kilograms. -/
theorem greedyLoop_conserve (fuel : ℕ) :
    ∀ s : BuildState,
      (greedyLoop fuel s).remainingCapacity + sumPlannedKg (greedyLoop fuel s).selected =
        s.remainingCapacity + sumPlannedKg s.selected := by
  induction fuel with
  | zero => intro s; rfl
  | succ n ih =>
    intro s
    rw [greedyLoop_succ]
    by_cases hr : s.remainingCapacity ≤ 0
    · rw [if_pos hr]
    · rw [if_neg hr]
      cases hfb : findBest s.pool s.currentPos s.remainingCapacity with
      | none => rfl
      | some best3 =>
        obtain ⟨idx, best, dist⟩ := best3
        rw [ih]
        simp only [sumPlannedKg_append]
        simp [sumPlannedKg]

/-- Starting from a nonnegative remaining capacity, the loop keeps it
nonnegative: a candidate is only selected when it fits. -/
theorem greedyLoop_nonneg (fuel : ℕ) :
    ∀ s : BuildState, 0 ≤ s.remainingCapacity →
      0 ≤ (greedyLoop fuel s).remainingCapacity := by
  induction fuel with
  | zero => intro s h; exact h
  | succ n ih =>
    intro s h
    rw [greedyLoop_succ]
    by_cases hr : s.remainingCapacity ≤ 0
    · rw [if_pos hr]; exact h
    · rw [if_neg hr]
      cases hfb : findBest s.pool s.currentPos s.remainingCapacity with
      | none => exact h
      | some best3 =>
        obtain ⟨idx, best, dist⟩ := best3
        have hg := findBest_spec _ _ _ _ _ _ hfb
        exact ih _ (by simp only []; linarith [hg.2.1])

/-- Every stop the loop appends carries a present, nonzero coordinate. -/
theorem greedyLoop_geoOk (fuel : ℕ) :
    ∀ s : BuildState, s.selected.all selectedGeoOk = true →
      (greedyLoop fuel s).selected.all selectedGeoOk = true := by
  induction fuel with
  | zero => intro s h; exact h
  | succ n ih =>
    intro s h
    rw [greedyLoop_succ]
    by_cases hr : s.remainingCapacity ≤ 0
    · rw [if_pos hr]; exact h
    · rw [if_neg hr]
      cases hfb : findBest s.pool s.currentPos s.remainingCapacity with
      | none => exact h
      | some best3 =>
        obtain ⟨idx, best, dist⟩ := best3
        have hg := findBest_spec _ _ _ _ _ _ hfb
        obtain ⟨g, hgeo, hz⟩ := hg.2.2
        refine ih _ ?_
        simp only [List.all_append, h, Bool.true_and, List.all_cons, List.all_nil,
          Bool.and_true]
        simp [selectedGeoOk, hgeo, hz]

/-- buildGreedyTour written as its loop result (pure unfolding). -/
theorem buildGreedyTour_eq (demands : List DemandDoc) (start : Option GeoPoint)
    (cap : ℚ) :
    buildGreedyTour demands start cap =
      { remainingCapacityKg :=
          ((round (greedyLoop MAX_ITERATIONS
            { pool := demands.map (fun d => { demand := d, used := false })
              remainingCapacity := cap, currentPos := start
              totalDistanceKm := 0, selected := [] }).remainingCapacity : ℤ) : ℚ)
        totalDistanceKm := jsToFixed2 (greedyLoop MAX_ITERATIONS
            { pool := demands.map (fun d => { demand := d, used := false })
              remainingCapacity := cap, currentPos := start
              totalDistanceKm := 0, selected := [] }).totalDistanceKm
        selected := (greedyLoop MAX_ITERATIONS
            { pool := demands.map (fun d => { demand := d, used := false })
              remainingCapacity := cap, currentPos := start
              totalDistanceKm := 0, selected := [] }).selected } := rfl

/-- Claim C5 (amended): for every candidate pool, start position and
nonnegative capacity, the kilograms of the selected stops sum to at most
the capacity; and for every input, the reported remaining capacity is
the rounding of capacity minus that sum (the source applies Math.round
before reporting), rather than the exact difference. -/
theorem c5_capacity_invariant (demands : List DemandDoc) (start : Option GeoPoint)
    (cap : ℚ) :
    (0 ≤ cap → sumPlannedKg (buildGreedyTour demands start cap).selected ≤ cap) ∧
    (buildGreedyTour demands start cap).remainingCapacityKg =
      ((round (cap - sumPlannedKg (buildGreedyTour demands start cap).selected) : ℤ) : ℚ) := by
  have hcons := greedyLoop_conserve MAX_ITERATIONS
    { pool := demands.map (fun d => { demand := d, used := false })
      remainingCapacity := cap, currentPos := start
      totalDistanceKm := 0, selected := [] }
  simp only [sumPlannedKg, List.map_nil, List.sum_nil, add_zero] at hcons
  constructor
  · intro hcap
    have hnn := greedyLoop_nonneg MAX_ITERATIONS
      { pool := demands.map (fun d => { demand := d, used := false })
        remainingCapacity := cap, currentPos := start
        totalDistanceKm := 0, selected := [] } hcap
    simp only [buildGreedyTour_eq, sumPlannedKg]
    linarith [hcons, hnn]
  · simp only [buildGreedyTour_eq, sumPlannedKg]
    congr 2
    linarith [hcons]

/-- Witness for C5 at a concrete input. -/
theorem c5_capacity_invariant_witness :
    (0 : ℚ) ≤ 3200 ∧
    sumPlannedKg (buildGreedyTour [] none 3200).selected ≤ 3200 ∧
    (buildGreedyTour [] none 3200).remainingCapacityKg =
      ((round ((3200 : ℚ) - sumPlannedKg (buildGreedyTour [] none 3200).selected) : ℤ) : ℚ) :=
  ⟨by norm_num, (c5_capacity_invariant [] none 3200).1 (by norm_num),
   (c5_capacity_invariant [] none 3200).2⟩

/-- Claim C5 counterexample: with the fractional capacity 3200.5 and an
empty pool, no stop is selected, yet the builder reports remaining
capacity 3201 (Math.round applied), which differs from capacity minus
the selected sum 3200.5; so the reported remaining capacity does not
equal capacity minus the selected quantities. -/
theorem c5_rounding_counterexample :
    (buildGreedyTour [] none (6401 / 2)).remainingCapacityKg = 3201 ∧
    sumPlannedKg (buildGreedyTour [] none (6401 / 2)).selected = 0 ∧
    (buildGreedyTour [] none (6401 / 2)).remainingCapacityKg ≠
      (6401 / 2 : ℚ) - sumPlannedKg (buildGreedyTour [] none (6401 / 2)).selected := by
  have hfb : findBest ([] : List PoolEntry) none (6401 / 2) = none := rfl
  have hloop : greedyLoop MAX_ITERATIONS
      ({ pool := ([] : List DemandDoc).map (fun d => { demand := d, used := false })
         remainingCapacity := 6401 / 2, currentPos := none
         totalDistanceKm := 0, selected := [] } : BuildState) =
      { pool := [], remainingCapacity := 6401 / 2, currentPos := none
        totalDistanceKm := 0, selected := [] } := by
    show greedyLoop (99 + 1) _ = _
    rw [greedyLoop_succ]
    norm_num [hfb]
  refine ⟨?_, ?_, ?_⟩ <;>
    simp only [buildGreedyTour_eq, hloop, sumPlannedKg] <;>
    norm_num [round_eq]

/-- Whatever demand the candidate scan step of buildGreedyTours reports
as best passed every filter. -/
theorem scanStepP_spec (pos : GeoPoint) (rem : ℚ)
    (acc : Option (ℕ × PlanDemand × ℝ) × Option ℝ) (idx : ℕ) (d : PlanDemand)
    (h : ∀ i a dist, acc.1 = some (i, a, dist) → goodPlanDemand rem a) :
    ∀ i a dist, (scanStepP pos rem acc idx d).1 = some (i, a, dist) →
      goodPlanDemand rem a := by
  intro i a dist hsome
  by_cases hu : d.assigned
  · simp only [scanStepP, if_pos hu] at hsome; exact h _ _ _ hsome
  · by_cases hq : rem < d.kg
    · simp only [scanStepP, if_neg hu, if_pos hq] at hsome; exact h _ _ _ hsome
    · by_cases hz : d.lat = 0 ∨ d.lng = 0
      · simp only [scanStepP, if_neg hu, if_neg hq, if_pos hz] at hsome
        exact h _ _ _ hsome
      · cases hdist : distanceKmP pos ⟨d.lat, d.lng⟩ with
        | none =>
          simp only [scanStepP, if_neg hu, if_neg hq, if_neg hz, hdist] at hsome
          exact h _ _ _ hsome
        | some dv =>
          have hused : d.assigned = false := by
            revert hu; cases d.assigned <;> simp
          cases hacc : acc.2 with
          | none =>
            simp only [scanStepP, if_neg hu, if_neg hq, if_neg hz, hdist,
              hacc] at hsome
            simp only [Option.some.injEq, Prod.mk.injEq] at hsome
            obtain ⟨-, ha, -⟩ := hsome
            exact ha ▸ ⟨hused, not_lt.mp hq, hz⟩
          | some b =>
            by_cases hlt : dv / (1 + (d.priority : ℝ) / 50) < b
            · simp only [scanStepP, if_neg hu, if_neg hq, if_neg hz, hdist,
                hacc, if_pos hlt] at hsome
              simp only [Option.some.injEq, Prod.mk.injEq] at hsome
              obtain ⟨-, ha, -⟩ := hsome
              exact ha ▸ ⟨hused, not_lt.mp hq, hz⟩
            · simp only [scanStepP, if_neg hu, if_neg hq, if_neg hz, hdist,
                hacc, if_neg hlt] at hsome
              exact h _ _ _ hsome

/-- Goodness propagates through the whole scan of the plan pool. -/
theorem scanPoolP_spec (pos : GeoPoint) (rem : ℚ) :
    ∀ (l : List PlanDemand) (idx : ℕ)
      (acc : Option (ℕ × PlanDemand × ℝ) × Option ℝ),
      (∀ i a dist, acc.1 = some (i, a, dist) → goodPlanDemand rem a) →
      ∀ i a dist, (scanPoolP pos rem l idx acc).1 = some (i, a, dist) →
        goodPlanDemand rem a := by
  intro l
  induction l with
  | nil => intro idx acc h; exact h
  | cons d rest ih =>
    intro idx acc h
    simp only [scanPoolP]
    exact ih (idx + 1) _ (scanStepP_spec pos rem acc idx d h)

/-- The best candidate returned by findBestP passed every filter. -/
theorem findBestP_spec (pool : List PlanDemand) (pos : GeoPoint) (rem : ℚ)
    (i : ℕ) (a : PlanDemand) (dist : ℝ)
    (h : findBestP pool pos rem = some (i, a, dist)) : goodPlanDemand rem a := by
  refine scanPoolP_spec pos rem pool 0 (none, none) ?_ i a dist h
  intro i a dist hcontra
  simp at hcontra

/-- Unfolding lemma for one pass of the per driver loop. -/
theorem driverLoop_succ (n : ℕ) (s : PlanDriverState) :
    driverLoop (n + 1) s =
      match findBestP s.pool s.currentPos s.remainingCapacity with
      | none => s
      | some (idx, best, dist) =>
        driverLoop n
          { pool := s.pool.set idx { best with assigned := true }
            remainingCapacity := s.remainingCapacity - best.kg
            currentPos := ⟨best.lat, best.lng⟩
            totalDistanceKm := s.totalDistanceKm + dist
            stops := s.stops ++
              [{ demandId := best.id, kg := best.kg, lat := best.lat, lng := best.lng
                 order := s.stops.length + 1, distanceFromPrevKm := jsToFixed2 dist
                 priority := best.priority }] } := rfl

/-- Every stop the per driver loop appends has nonzero coordinates. -/
theorem driverLoop_stops_ok (fuel : ℕ) :
    ∀ s : PlanDriverState, s.stops.all planStopCoordOk = true →
      (driverLoop fuel s).stops.all planStopCoordOk = true := by
  induction fuel with
  | zero => intro s h; exact h
  | succ n ih =>
    intro s h
    rw [driverLoop_succ]
    cases hfb : findBestP s.pool s.currentPos s.remainingCapacity with
    | none => exact h
    | some best3 =>
      obtain ⟨idx, best, dist⟩ := best3
      have hg := findBestP_spec _ _ _ _ _ _ hfb
      refine ih _ ?_
      simp only [List.all_append, h, Bool.true_and, List.all_cons, List.all_nil,
        Bool.and_true]
      simp [planStopCoordOk, hg.2.2]

/-- The driver fold preserves the nonzero coordinate property of every
produced tour. -/
theorem planFold_stops_ok (fuel : ℕ) :
    ∀ (drivers : List PlanDriver) (acc : List PlanTour × List PlanDemand),
      acc.1.all (fun tp => tp.stops.all planStopCoordOk) = true →
      ((drivers.foldl (planDriverStep fuel) acc).1.all
        (fun tp => tp.stops.all planStopCoordOk)) = true := by
  intro drivers
  induction drivers with
  | nil => intro acc h; exact h
  | cons d rest ih =>
    intro acc h
    simp only [List.foldl_cons]
    apply ih
    simp only [planDriverStep, List.all_append, h, Bool.true_and, List.all_cons,
      List.all_nil, Bool.and_true]
    exact driverLoop_stops_ok fuel _ (by simp)

/-- Claim C10 (confirmed): a candidate whose latitude or longitude is
exactly 0 is treated as having no coordinate by the falsy checks and is
never selected: every stop of every tour built by buildGreedyTours (at
any loop fuel, hence also for the unbounded source loop) has nonzero
latitude and longitude, and every stop selected by buildGreedyTour
carries a present coordinate with nonzero components. -/
theorem c10_zero_coordinate_never_selected :
    (∀ (fuel : ℕ) (drivers : List PlanDriver) (demands : List PlanDemand),
        (buildGreedyToursFuel fuel drivers demands).all
          (fun tp => tp.stops.all planStopCoordOk) = true) ∧
    (∀ (demands : List DemandDoc) (start : Option GeoPoint) (cap : ℚ),
        (buildGreedyTour demands start cap).selected.all selectedGeoOk = true) := by
  constructor
  · intro fuel drivers demands
    simp only [buildGreedyToursFuel]
    exact planFold_stops_ok fuel drivers _ (by simp)
  · intro demands start cap
    simp only [buildGreedyTour_eq]
    exact greedyLoop_geoOk MAX_ITERATIONS _ (by simp)

/-- Claim C4 counterexample: on the scenario pool exactly as stated,
with demand 1 at (0, 0) and demand 2 at (0, 1) and start (0, 0), the
builder selects nothing at all, because a latitude or longitude equal to
0 fails the falsy coordinate checks; the result has zero stops and
remaining capacity 3200, not one stop and 1200. -/
theorem c4_zero_coordinate_counterexample :
    (buildGreedyTour [c4d1, c4d2] (some ⟨0, 0⟩) 3200).selected.map
      (fun s => s.demand.id) = [] ∧
    (buildGreedyTour [c4d1, c4d2] (some ⟨0, 0⟩) 3200).remainingCapacityKg = 3200 ∧
    ¬ ((buildGreedyTour [c4d1, c4d2] (some ⟨0, 0⟩) 3200).selected.map
        (fun s => s.demand.id) = [1] ∧
       (buildGreedyTour [c4d1, c4d2] (some ⟨0, 0⟩) 3200).remainingCapacityKg = 1200) := by
  have hfb : findBest [⟨c4d1, false⟩, ⟨c4d2, false⟩] (some ⟨0, 0⟩) 3200 = none := by
    norm_num [findBest, scanPool, scanStep, c4d1, c4d2]
  have hloop : greedyLoop MAX_ITERATIONS
      ({ pool := [⟨c4d1, false⟩, ⟨c4d2, false⟩], remainingCapacity := 3200
         currentPos := some ⟨0, 0⟩, totalDistanceKm := 0, selected := [] } : BuildState) =
      { pool := [⟨c4d1, false⟩, ⟨c4d2, false⟩], remainingCapacity := 3200
        currentPos := some ⟨0, 0⟩, totalDistanceKm := 0, selected := [] } := by
    show greedyLoop (99 + 1) _ = _
    rw [greedyLoop_succ]
    rw [if_neg (by norm_num : ¬ (3200 : ℚ) ≤ 0)]
    rw [hfb]
  refine ⟨?_, ?_, ?_⟩ <;>
    simp only [buildGreedyTour_eq, List.map_cons, List.map_nil, hloop]
  · norm_num [round_eq]
  · intro hcon
    obtain ⟨h1, -⟩ := hcon
    simp at h1

/-- Claim C4 (amended): the zero components of the stated coordinates
are rejected as missing, so the stated pool yields an empty tour (see
the counterexample); on the same pool translated off the zero axes
(start (1, 1), demand 1 at (1, 1), demand 2 at (1, 2)) the builder
selects demand 1 first (closer and higher priority) and demand 2 does
not fit the remaining 1200, giving exactly one stop and remaining
capacity 1200. -/
theorem c4_shifted_scenario_one_stop :
    (buildGreedyTour [c4s1, c4s2] (some ⟨1, 1⟩) 3200).selected.map
      (fun s => s.demand.id) = [1] ∧
    (buildGreedyTour [c4s1, c4s2] (some ⟨1, 1⟩) 3200).remainingCapacityKg = 1200 := by
  have hfb1 : findBest [⟨c4s1, false⟩, ⟨c4s2, false⟩] (some ⟨1, 1⟩) 3200 =
      some (0, ⟨c4s1, false⟩, haversineKm ⟨1, 1⟩ ⟨1, 1⟩) := by
    have h1 : scanStep (some ⟨1, 1⟩) 3200 (none, none) 0 ⟨c4s1, false⟩ =
        (some (0, ⟨c4s1, false⟩, haversineKm ⟨1, 1⟩ ⟨1, 1⟩),
         some (haversineKm ⟨1, 1⟩ ⟨1, 1⟩ / (1 + ((80 : ℚ) : ℝ) / 50))) := by
      norm_num [scanStep, c4s1, c4d1, distanceKm]
    have h2 : scanStep (some ⟨1, 1⟩) 3200
        (some (0, ⟨c4s1, false⟩, haversineKm ⟨1, 1⟩ ⟨1, 1⟩),
         some (haversineKm ⟨1, 1⟩ ⟨1, 1⟩ / (1 + ((80 : ℚ) : ℝ) / 50))) 1 ⟨c4s2, false⟩ =
        (some (0, ⟨c4s1, false⟩, haversineKm ⟨1, 1⟩ ⟨1, 1⟩),
         some (haversineKm ⟨1, 1⟩ ⟨1, 1⟩ / (1 + ((80 : ℚ) : ℝ) / 50))) := by
      norm_num [scanStep, c4s2, c4d2, distanceKm, haversineKm_self]
      exact div_nonneg (haversineKm_nonneg _ _) (by norm_num)
    simp only [findBest, scanPool, h1, h2]
  have hfb2 : findBest [⟨c4s1, true⟩, ⟨c4s2, false⟩] (some ⟨1, 1⟩) 1200 = none := by
    norm_num [findBest, scanPool, scanStep, c4s1, c4d1, c4s2, c4d2]
  have hq1 : (3200 : ℚ) - c4s1.qtyEstimatedKg = 1200 := by norm_num [c4s1, c4d1]
  have hg1 : c4s1.geo = some ⟨1, 1⟩ := rfl
  have hloop : greedyLoop MAX_ITERATIONS
      ({ pool := [⟨c4s1, false⟩, ⟨c4s2, false⟩], remainingCapacity := 3200
         currentPos := some ⟨1, 1⟩, totalDistanceKm := 0, selected := [] } : BuildState) =
      { pool := [⟨c4s1, true⟩, ⟨c4s2, false⟩]
        remainingCapacity := 1200
        currentPos := some ⟨1, 1⟩
        totalDistanceKm := 0 + haversineKm ⟨1, 1⟩ ⟨1, 1⟩
        selected := [⟨c4s1, jsToFixed2 (haversineKm ⟨1, 1⟩ ⟨1, 1⟩)⟩] } := by
    show greedyLoop (99 + 1) _ = _
    rw [greedyLoop_succ]
    rw [if_neg (by norm_num : ¬ (3200 : ℚ) ≤ 0)]
    rw [hfb1]
    dsimp only [List.set]
    rw [hq1, hg1]
    show greedyLoop (98 + 1) _ = _
    rw [greedyLoop_succ]
    rw [if_neg (by norm_num : ¬ (1200 : ℚ) ≤ 0)]
    rw [hfb2]
    simp
  constructor <;>
    simp only [buildGreedyTour_eq, List.map_cons, List.map_nil, hloop]
  · norm_num [c4s1, c4d1]
  · norm_num [round_eq]

/-- Writing back a document that satisfies the lookup predicate over
every matching slot makes the lookup return exactly that document. -/
theorem find?_map_update {α : Type} (p : α → Prop) [DecidablePred p] (b : α)
    (hb : p b) (l : List α) :
    (l.find? (fun x => decide (p x))).isSome = true →
    (l.map (fun x => if p x then b else x)).find? (fun x => decide (p x)) = some b := by
  induction l with
  | nil => intro h; simp at h
  | cons a rest ih =>
    intro h
    by_cases hpa : p a
    · simp [List.find?_cons, hpa, hb]
    · have hd : decide (p a) = false := by simp [hpa]
      simp only [List.find?_cons, hd] at h
      simp only [List.map_cons, if_neg hpa, List.find?_cons, hd]
      exact ih h

/-- Saving an updated tour document with the looked up id makes findTour
return it. -/
theorem findTour_saveTour (db : DB) (tourId : ℕ) (t : TourDoc) (ht : t.id = tourId)
    (hsome : (findTour db tourId).isSome = true) :
    findTour (saveTour db tourId t) tourId = some t := by
  have h2 : (db.tours.find? (fun u => decide (u.id = tourId))).isSome = true := hsome
  exact find?_map_update (fun u => u.id = tourId) t ht db.tours h2

/-- Replacing the looked up stop in the stops array makes the stop
lookup return the replacement. -/
theorem findStop_update (t : TourDoc) (stopId : ℕ) (s1 : Stop) (hs : s1.sid = stopId)
    (hsome : (findStop t stopId).isSome = true) :
    (t.stops.map (fun s => if s.sid = stopId then s1 else s)).find?
      (fun s => decide (s.sid = stopId)) = some s1 := by
  have h2 : (t.stops.find? (fun s => decide (s.sid = stopId))).isSome = true := hsome
  exact find?_map_update (fun s => s.sid = stopId) s1 hs t.stops h2

/-- Saving a tour whose looked up stop was replaced reports the
replacement stop status. -/
theorem getStopStatus_save (db : DB) (tid sid : ℕ) (tour : TourDoc) (stop1 : Stop)
    (hid : tour.id = tid) (hsid : stop1.sid = sid)
    (hsome : (findTour db tid).isSome = true)
    (hstopSome : (findStop tour sid).isSome = true)
    (newStatus : TourStatus) :
    getStopStatus (saveTour db tid
      { tour with stops := tour.stops.map (fun s => if s.sid = sid then stop1 else s)
                  status := newStatus }) tid sid = some stop1.status := by
  simp only [getStopStatus]
  rw [findTour_saveTour db tid
    { tour with stops := tour.stops.map (fun s => if s.sid = sid then stop1 else s)
                status := newStatus } hid hsome]
  have hf := findStop_update tour sid stop1 hsid hstopSome
  show (Option.map (fun s => s.status)
    (List.find? (fun s => decide (s.sid = sid))
      (tour.stops.map (fun s => if s.sid = sid then stop1 else s)))) = some stop1.status
  rw [hf]
  rfl

/-- Claim C1 (code_bug): concrete run of notReadyStop. The release does
fully clear the assignment record, but it also sets the demand status to
NOT_READY, and the eligibility filter of the requestTour pool fetch only
accepts status NEW or CONFIRMED, so the released demand is not eligible
for a subsequent requestTour; flipping just its status back to CONFIRMED
would make it eligible, showing the status is the sole blocker. -/
theorem c1_released_demand_not_eligible :
    notReadyStopCtrl c1db 1 11 none 5 = .ok c1dbAfter ∧
    c1dbAfter.demands = [c1demandAfter] ∧
    c1demandAfter.assigned = none ∧
    eligibleDemand c1demandAfter = false ∧
    eligibleDemand { c1demandAfter with status := DemandStatus.CONFIRMED } = true :=
  ⟨rfl, rfl, rfl, by decide, by decide⟩

/-- Claim C3 counterexample: completing the stop of the concrete
database, whose status is already the terminal PARTIAL, does not produce
an InvalidState error: the call succeeds and overwrites the stop status
to COMPLETED. -/
theorem c3_terminal_stop_overwritten :
    getStopStatus c3db 1 11 = some .PARTIAL ∧
    (completeStopCtrl c3db 1 11 (some 0) (some 0) none 9).toOption.map
      (fun db2 => getStopStatus db2 1 11) = some (some .COMPLETED) :=
  ⟨rfl, rfl⟩

/-- Claim C3 (amended): completeStop and the PARTIAL handler perform no
precondition check on the current stop status. Whenever the tire counts
are present and nonnegative and the tour and stop are found, the call
succeeds from any prior stop status, including terminal ones, setting
the stop to COMPLETED (respectively PARTIAL); the only errors these
endpoints can return are validation and not found errors, never an
invalid state error. -/
theorem c3_no_status_precondition (db : DB) (tid sid : ℕ) (sv mv : ℚ)
    (notes : Option String) (now : ℚ) (tour : TourDoc) (stop : Stop)
    (hsv : 0 ≤ sv) (hmv : 0 ≤ mv)
    (htour : findTour db tid = some tour)
    (hstop : findStop tour sid = some stop) :
    (completeStopCtrl db tid sid (some sv) (some mv) notes now).toOption.map
      (fun db2 => getStopStatus db2 tid sid) = some (some StopStatus.COMPLETED) ∧
    (markPartialStopCtrl db tid sid (some sv) (some mv) notes now).toOption.map
      (fun db2 => getStopStatus db2 tid sid) = some (some StopStatus.PARTIAL) := by
  have hneg : ¬ (sv < 0 ∨ mv < 0) := by
    push_neg
    exact ⟨hsv, hmv⟩
  have hid : tour.id = tid := by
    have h0 := List.find?_some htour
    exact of_decide_eq_true h0
  have hsid : stop.sid = sid := by
    have h0 := List.find?_some hstop
    exact of_decide_eq_true h0
  have hstopSome : (findStop tour sid).isSome = true := by rw [hstop]; rfl
  constructor
  · have htsome : (findTour (updateDemand db stop.demand
        (fun d => { d with status := DemandStatus.COMPLETED })) tid).isSome = true := by
      show (findTour db tid).isSome = true
      rw [htour]; rfl
    simp only [completeStopCtrl, if_neg hneg, htour, hstop]
    show some (getStopStatus _ tid sid) = _
    rw [getStopStatus_save _ tid sid tour _ hid (by exact hsid) htsome hstopSome _]
  · have htsome : (findTour (updateDemand db stop.demand
        (fun d => { d with status := DemandStatus.PARTIAL })) tid).isSome = true := by
      show (findTour db tid).isSome = true
      rw [htour]; rfl
    simp only [markPartialStopCtrl, if_neg hneg, htour, hstop]
    show some (getStopStatus _ tid sid) = _
    rw [getStopStatus_save _ tid sid tour _ hid (by exact hsid) htsome hstopSome _]

/-- Witness for C3 at the concrete database (tour 1, stop 11). -/
theorem c3_no_status_precondition_witness :
    (0 : ℚ) ≤ 0 ∧
    findTour c3db 1 = some c3tour ∧
    findStop c3tour 11 = some c3stop ∧
    ((completeStopCtrl c3db 1 11 (some 0) (some 0) none 9).toOption.map
      (fun db2 => getStopStatus db2 1 11) = some (some StopStatus.COMPLETED) ∧
     (markPartialStopCtrl c3db 1 11 (some 0) (some 0) none 9).toOption.map
      (fun db2 => getStopStatus db2 1 11) = some (some StopStatus.PARTIAL)) :=
  ⟨le_refl 0, rfl, rfl,
   c3_no_status_precondition c3db 1 11 0 0 none 9 c3tour c3stop
     (le_refl 0) (le_refl 0) rfl rfl⟩

/-- Claim C2 (code_bug): requestTour persists the tour creation and the
demand assignment as two separate writes with no transaction. On the
concrete one demand scenario, the write trace of the successful request
contains the intermediate database state c2dbMid, in which the created
tour (whose single stop consumes demand 5) is stored while demand 5
still has no assignment and status NEW: the claimed atomicity does not
hold of the code. -/
theorem c2_commit_not_atomic :
    requestTourCtrl c2db (some 7) 1 1 none 0 1 =
      (.created c2tour, [c2db, c2dbMid, c2dbFinal]) ∧
    c2tour ∈ c2dbMid.tours ∧
    c2tour.stops.map (fun s => s.demand) = [5] ∧
    c2dbMid.demands = [c2demand] ∧
    c2demand.assigned = none ∧
    c2demand.status = DemandStatus.NEW := by
  refine ⟨?_, by simp [c2dbMid], by simp [c2tour], rfl, rfl, rfl⟩
  have hfetch : fetchEligibleDemands c2db = [c2demand] := by
    norm_num [fetchEligibleDemands, c2db, List.filter, eligibleDemand, c2demand]
  have hfb1 : findBest [⟨c2demand, false⟩] (some ⟨1, 1⟩) 3200 =
      some (0, ⟨c2demand, false⟩, haversineKm ⟨1, 1⟩ ⟨1, 1⟩) := by
    have h1 : scanStep (some ⟨1, 1⟩) 3200 (none, none) 0 ⟨c2demand, false⟩ =
        (some (0, ⟨c2demand, false⟩, haversineKm ⟨1, 1⟩ ⟨1, 1⟩),
         some (haversineKm ⟨1, 1⟩ ⟨1, 1⟩ / (1 + ((0 : ℚ) : ℝ) / 50))) := by
      norm_num [scanStep, c2demand, distanceKm]
    simp only [findBest, scanPool, h1]
  have hfb2 : findBest [⟨c2demand, true⟩] (some ⟨1, 1⟩) 3100 = none := by
    norm_num [findBest, scanPool, scanStep]
  have hq1 : (3200 : ℚ) - c2demand.qtyEstimatedKg = 3100 := by norm_num [c2demand]
  have hg1 : c2demand.geo = some ⟨1, 1⟩ := rfl
  have hloop : greedyLoop MAX_ITERATIONS
      ({ pool := [⟨c2demand, false⟩], remainingCapacity := 3200
         currentPos := some ⟨1, 1⟩, totalDistanceKm := 0, selected := [] } : BuildState) =
      { pool := [⟨c2demand, true⟩]
        remainingCapacity := 3100
        currentPos := some ⟨1, 1⟩
        totalDistanceKm := 0 + haversineKm ⟨1, 1⟩ ⟨1, 1⟩
        selected := [⟨c2demand, jsToFixed2 (haversineKm ⟨1, 1⟩ ⟨1, 1⟩)⟩] } := by
    show greedyLoop (99 + 1) _ = _
    rw [greedyLoop_succ]
    rw [if_neg (by norm_num : ¬ (3200 : ℚ) ≤ 0)]
    rw [hfb1]
    dsimp only [List.set]
    rw [hq1, hg1]
    show greedyLoop (98 + 1) _ = _
    rw [greedyLoop_succ]
    rw [if_neg (by norm_num : ¬ (3100 : ℚ) ≤ 0)]
    rw [hfb2]
    simp
  have hbuild : buildGreedyTour [c2demand] (some ⟨1, 1⟩) 3200 =
      { remainingCapacityKg := 3100
        totalDistanceKm := jsToFixed2 (0 + haversineKm ⟨1, 1⟩ ⟨1, 1⟩)
        selected := [⟨c2demand, jsToFixed2 (haversineKm ⟨1, 1⟩ ⟨1, 1⟩)⟩] } := by
    simp only [buildGreedyTour_eq, List.map_cons, List.map_nil, hloop]
    norm_num [round_eq]
  have hdrv : findDriver c2db 7 = some c2driver := rfl
  have htours : c2db.tours = [] := rfl
  have hid : c2demand.id = 5 := rfl
  have hqty : c2demand.qtyEstimatedKg = 100 := rfl
  have hprio : c2demand.priority = 0 := rfl
  norm_num [requestTourCtrl, hdrv, htours, c2driver, jsOrNat, jsOr,
    hfetch, hbuild, List.mapIdx_cons, createTourWrite, assignDemandsWrite,
    hid, hqty, hprio, hg1, c2tour, c2dbMid, c2dbFinal]
  norm_num [c2db, c2demand, c2driver]

/-- Claim C9 (confirmed): when an active (PLANNED or IN_PROGRESS) tour
already exists for the requesting driver on the requested day, a
requestTour call from that driver returns exactly that tour with the
reused flag and performs no database write at all (its write trace is
just the unchanged state), so repeated calls keep returning the
identical tour, no new tour is created and no demand is modified. -/
theorem c9_requestTour_idempotent (db : DB) (driverId : ℕ) (lat lng : ℚ)
    (date : Option ℤ) (todayDate : ℤ) (freshTourId : ℕ) (driver : DriverDoc)
    (vehicle : VehicleDoc) (t : TourDoc)
    (hloc : ¬ (lat = 0 ∨ lng = 0))
    (hdrv : findDriver db driverId = some driver)
    (hact : driver.active = true)
    (hveh : driver.vehicle = some vehicle)
    (hvact : vehicle.active = true)
    (hex : db.tours.find? (fun u =>
        decide (u.driver = driverId) && decide (u.date = date.getD todayDate) &&
        (decide (u.status = TourStatus.PLANNED) ||
         decide (u.status = TourStatus.IN_PROGRESS))) = some t) :
    requestTourCtrl db (some driverId) lat lng date todayDate freshTourId =
      (.reusedTour t, [db]) := by
  simp only [requestTourCtrl]
  rw [if_neg hloc]
  simp only [hdrv, hact, hveh, hvact, hex]
  simp

/-- Witness for C9 at the concrete database (driver 7, day 100). -/
theorem c9_requestTour_idempotent_witness :
    ¬ ((1 : ℚ) = 0 ∨ (1 : ℚ) = 0) ∧
    findDriver c9db 7 = some c9driver ∧
    c9driver.active = true ∧
    c9driver.vehicle = some { id := 1, active := true, capacityKg := 3200 } ∧
    c9db.tours.find? (fun u =>
        decide (u.driver = 7) && decide (u.date = (some (100 : ℤ)).getD 0) &&
        (decide (u.status = TourStatus.PLANNED) ||
         decide (u.status = TourStatus.IN_PROGRESS))) = some c9tour ∧
    requestTourCtrl c9db (some 7) 1 1 (some 100) 0 2 = (.reusedTour c9tour, [c9db]) :=
  ⟨by norm_num, rfl, rfl, rfl, rfl,
   c9_requestTour_idempotent c9db 7 1 1 (some 100) 0 2 c9driver
     { id := 1, active := true, capacityKg := 3200 } c9tour
     (by norm_num) rfl rfl rfl rfl rfl⟩

/-- Saving a tour with the status recomputed from its new stops array
establishes the derived status property, whatever the stops are. -/
theorem statusDerived_save (db : DB) (tid : ℕ) (tour : TourDoc) (stops1 : List Stop)
    (hid : tour.id = tid) (hsome : (findTour db tid).isSome = true) :
    statusDerived (saveTour db tid
      { tour with stops := stops1
                  status := if stops1.all (fun s => stopDone s.status) then TourStatus.COMPLETED
                            else TourStatus.IN_PROGRESS }) tid := by
  intro t ht
  rw [findTour_saveTour db tid
    { tour with stops := stops1
                status := if stops1.all (fun s => stopDone s.status) then TourStatus.COMPLETED
                          else TourStatus.IN_PROGRESS } hid hsome] at ht
  cases ht
  rfl

/-- A successful completeStop leaves the tour status derived from its
stops. -/
theorem completeStop_statusDerived (db : DB) (tid sid : ℕ) (st mt : Option ℚ)
    (notes : Option String) (now : ℚ) (db2 : DB)
    (h : completeStopCtrl db tid sid st mt notes now = .ok db2) :
    statusDerived db2 tid := by
  cases st with
  | none => simp [completeStopCtrl] at h
  | some sv =>
    cases mt with
    | none => simp [completeStopCtrl] at h
    | some mv =>
      by_cases hneg : sv < 0 ∨ mv < 0
      · simp [completeStopCtrl, if_pos hneg] at h
      · cases htour : findTour db tid with
        | none => simp [completeStopCtrl, if_neg hneg, htour] at h
        | some tour =>
          cases hstop : findStop tour sid with
          | none => simp [completeStopCtrl, if_neg hneg, htour, hstop] at h
          | some stop =>
            simp only [completeStopCtrl, if_neg hneg, htour, hstop,
              Except.ok.injEq] at h
            subst h
            have h0 := List.find?_some htour
            have hid : tour.id = tid := of_decide_eq_true h0
            have hsome : (findTour (updateDemand db stop.demand
                (fun d => { d with status := DemandStatus.COMPLETED })) tid).isSome = true := by
              show (findTour db tid).isSome = true
              rw [htour]; rfl
            exact statusDerived_save _ tid tour _ hid hsome

/-- A successful PARTIAL transition leaves the tour status derived from
its stops. -/
theorem markPartialStop_statusDerived (db : DB) (tid sid : ℕ) (st mt : Option ℚ)
    (notes : Option String) (now : ℚ) (db2 : DB)
    (h : markPartialStopCtrl db tid sid st mt notes now = .ok db2) :
    statusDerived db2 tid := by
  cases st with
  | none => simp [markPartialStopCtrl] at h
  | some sv =>
    cases mt with
    | none => simp [markPartialStopCtrl] at h
    | some mv =>
      by_cases hneg : sv < 0 ∨ mv < 0
      · simp [markPartialStopCtrl, if_pos hneg] at h
      · cases htour : findTour db tid with
        | none => simp [markPartialStopCtrl, if_neg hneg, htour] at h
        | some tour =>
          cases hstop : findStop tour sid with
          | none => simp [markPartialStopCtrl, if_neg hneg, htour, hstop] at h
          | some stop =>
            simp only [markPartialStopCtrl, if_neg hneg, htour, hstop,
              Except.ok.injEq] at h
            subst h
            have h0 := List.find?_some htour
            have hid : tour.id = tid := of_decide_eq_true h0
            have hsome : (findTour (updateDemand db stop.demand
                (fun d => { d with status := DemandStatus.PARTIAL })) tid).isSome = true := by
              show (findTour db tid).isSome = true
              rw [htour]; rfl
            exact statusDerived_save _ tid tour _ hid hsome

/-- A successful notReadyStop leaves the tour status derived from its
stops. -/
theorem notReadyStop_statusDerived (db : DB) (tid sid : ℕ) (reason : Option String)
    (now : ℚ) (db2 : DB)
    (h : notReadyStopCtrl db tid sid reason now = .ok db2) :
    statusDerived db2 tid := by
  cases htour : findTour db tid with
  | none => simp [notReadyStopCtrl, htour] at h
  | some tour =>
    cases hstop : findStop tour sid with
    | none => simp [notReadyStopCtrl, htour, hstop] at h
    | some stop =>
      simp only [notReadyStopCtrl, htour, hstop, Except.ok.injEq] at h
      subst h
      have h0 := List.find?_some htour
      have hid : tour.id = tid := of_decide_eq_true h0
      have hsome : (findTour (updateDemand db stop.demand
          (fun d => { d with status := DemandStatus.NOT_READY, assigned := none }))
          tid).isSome = true := by
        show (findTour db tid).isSome = true
        rw [htour]; rfl
      exact statusDerived_save _ tid tour _ hid hsome

/-- Every successful stop transition leaves the tour status derived from
its stops. -/
theorem applyStopAction_statusDerived (db : DB) (tid : ℕ) (a : StopAction)
    (now : ℚ) (db2 : DB) (h : applyStopAction db tid a now = .ok db2) :
    statusDerived db2 tid := by
  cases a with
  | complete sid st mt notes =>
    exact completeStop_statusDerived db tid sid st mt notes now db2 h
  | markPartial sid st mt notes =>
    exact markPartialStop_statusDerived db tid sid st mt notes now db2 h
  | notReady sid reason =>
    exact notReadyStop_statusDerived db tid sid reason now db2 h

/-- After a nonempty successful sequence of stop transitions, the tour
status is derived from its stops. -/
theorem applyStopActions_statusDerived (tid : ℕ) (now : ℚ) :
    ∀ (acts : List StopAction) (db db2 : DB), acts ≠ [] →
      applyStopActions db tid now acts = .ok db2 → statusDerived db2 tid := by
  intro acts
  induction acts with
  | nil => intro db db2 hne; exact absurd rfl hne
  | cons a rest ih =>
    intro db db2 hne h
    simp only [applyStopActions] at h
    cases hstep : applyStopAction db tid a now with
    | error e =>
      simp only [hstep] at h
      exact Except.noConfusion h
    | ok db1 =>
      simp only [hstep] at h
      cases rest with
      | nil =>
        simp only [applyStopActions, Except.ok.injEq] at h
        subst h
        exact applyStopAction_statusDerived db tid a now db1 hstep
      | cons b rest2 =>
        exact ih db1 db2 (by simp) h

/-- Claim C6 (confirmed): after any nonempty sequence of successful stop
transitions against a tour, the tour status is COMPLETED exactly when
every stop is in a terminal status (COMPLETED, PARTIAL or NOT_READY) and
IN_PROGRESS otherwise; since every transition recomputes the status as
this pure function of the stops alone, the derivation is idempotent and
independent of the order of the transitions. -/
theorem c6_tour_status_derived (db : DB) (tid : ℕ) (now : ℚ)
    (acts : List StopAction) (db2 : DB) (t : TourDoc)
    (hne : acts ≠ [])
    (hrun : applyStopActions db tid now acts = .ok db2)
    (ht : findTour db2 tid = some t) :
    (t.status = TourStatus.COMPLETED ↔
      t.stops.all (fun s => stopDone s.status) = true) ∧
    (t.stops.all (fun s => stopDone s.status) = false →
      t.status = TourStatus.IN_PROGRESS) := by
  have hd := applyStopActions_statusDerived tid now acts db db2 hne hrun t ht
  by_cases hall : t.stops.all (fun s => stopDone s.status) = true
  · rw [if_pos hall] at hd
    exact ⟨⟨fun _ => hall, fun _ => hd⟩, fun hf => absurd hall (by simp [hf])⟩
  · rw [if_neg hall] at hd
    refine ⟨⟨fun hc => ?_, fun hl => absurd hl hall⟩, fun _ => hd⟩
    rw [hd] at hc
    exact absurd hc (by simp)

/-- Witness for C6: marking the single stop of the concrete tour not
ready yields a tour whose COMPLETED status matches its all terminal
stops. -/
theorem c6_tour_status_derived_witness :
    ([StopAction.notReady 11 none] ≠ []) ∧
    applyStopActions c6db 1 0 [StopAction.notReady 11 none] = .ok c6dbAfter ∧
    findTour c6dbAfter 1 = some c6tourAfter ∧
    ((c6tourAfter.status = TourStatus.COMPLETED ↔
        c6tourAfter.stops.all (fun s => stopDone s.status) = true) ∧
     (c6tourAfter.stops.all (fun s => stopDone s.status) = false →
        c6tourAfter.status = TourStatus.IN_PROGRESS)) :=
  ⟨by simp, by rfl, by rfl,
   c6_tour_status_derived c6db 1 0 [StopAction.notReady 11 none]
     c6dbAfter c6tourAfter (by simp) (by rfl) (by rfl)⟩

end LogisticApp
